import Mathlib

/-!
Shallow embedding of the MERN-stack social/profile service
(routes/api/posts.js, routes/api/profile.js, routes/api/users.js and the
auth route), together with proofs checking the specification's claims
about its mutation semantics.

JavaScript arrays are lists; MongoDB documents are structures; the
document collections (User, Profile, Post) are lists of structures.
`Array.prototype.indexOf` (which returns -1 on a miss) and
`Array.prototype.splice` (which counts a negative start from the end of
the array) are embedded faithfully as `jsIndexOf` and `spliceOne`.
External primitives (bcrypt hashing/compare, gravatar, express-validator
isEmail) are passed in as function parameters, mirroring their role as
opaque collaborators.
-/

namespace Mern

/-- JS `Array.prototype.indexOf`: first index of `x`, or -1 when absent. -/
def jsIndexOf : List String → String → Int
  | [], _ => -1
  | a :: as, x =>
    if a == x then 0
    else
      let r := jsIndexOf as x
      if r < 0 then -1 else r + 1

/-- JS `arr.splice(i, 1)`: remove one element at index `i`, where a
negative `i` counts from the end of the array (clamped to 0) and an
out-of-range nonnegative `i` removes nothing. -/
def spliceOne {α : Type} (l : List α) (i : Int) : List α :=
  let start : Nat := if i < 0 then ((l.length : Int) + i).toNat else min i.toNat l.length
  l.take start ++ l.drop (start + 1)

/-- A stored user document (models/User): identity, name, unique email,
avatar derived from the email, bcrypt-hashed password. -/
structure User where
  id : String
  name : String
  email : String
  avatar : String
  password : String
  deriving Repr, DecidableEq

/-- A like subdocument: identity of the liking user. -/
structure Like where
  user : String
  deriving Repr, DecidableEq

/-- A comment subdocument: locally-unique id, text, denormalized author
name/avatar, author identity. -/
structure Comment where
  id : String
  text : String
  name : String
  avatar : String
  user : String
  deriving Repr, DecidableEq

/-- A post document: id, text, denormalized author name/avatar, author
identity (`user`), creation date, nested likes and comments. -/
structure Post where
  id : String
  text : String
  name : String
  avatar : String
  user : String
  date : Nat
  likes : List Like
  comments : List Comment
  deriving Repr, DecidableEq

/-- Errors surfaced by the post routes, with the exact response messages
of the source. `notFound` is a 404, `forbidden` a 401, `conflict` a 400. -/
inductive ApiError where
  | notFound (msg : String)
  | forbidden (msg : String)
  | conflict (msg : String)
  deriving Repr, DecidableEq

/-- `Posts.findById` over the posts collection. -/
def findPost (store : List Post) (pid : String) : Option Post :=
  store.find? (fun p => p.id == pid)

/-- POST api/posts handler body (after validation): build a new post
denormalizing the author's current name and avatar. -/
def createPost (author : User) (text : String) (pid : String) (now : Nat) : Post :=
  { id := pid, text := text, name := author.name, avatar := author.avatar,
    user := author.id, date := now, likes := [], comments := [] }

/-- GET api/posts/:id handler: 404 if the post is absent, else the post. -/
def getPostById (store : List Post) (pid : String) : Except ApiError Post :=
  match findPost store pid with
  | none => .error (.notFound "Post Not Found")
  | some p => .ok p

/-- DELETE api/posts/:id handler: 404 if absent, 401 if the caller is not
the author, else remove the post.  Returns the response together with the
resulting collection. -/
def deletePostRoute (callerId : String) (pid : String) (store : List Post) :
    Except ApiError Unit × List Post :=
  match findPost store pid with
  | none => (.error (.notFound "Post Not Found"), store)
  | some post =>
    if post.user != callerId then
      (.error (.forbidden "User not authorised"), store)
    else
      (.ok (), store.filter (fun p => !(p.id == pid)))

/-- PUT api/posts/like/:id handler body, on the fetched post: 400 if a
like by the caller already exists, else unshift a new like. -/
def likePost (callerId : String) (p : Post) : Except ApiError Post :=
  let alreadyLiked := p.likes.filter (fun like => like.user == callerId)
  if alreadyLiked.length > 0 then
    .error (.conflict "Post already liked")
  else
    .ok { p with likes := { user := callerId } :: p.likes }

/-- The `removeIndex` computed by the PUT api/posts/unlike/:id handler:
`post.likes.map((like) => like.user.toString()).indexOf(req.user.id)`. -/
def unlikeRemoveIndex (callerId : String) (p : Post) : Int :=
  jsIndexOf (p.likes.map (fun like => like.user)) callerId

/-- PUT api/posts/unlike/:id handler body, on the fetched post: 400 if no
like by the caller exists, else splice out the like at the index found by
scanning like authors for the caller's id. -/
def unlikePost (callerId : String) (p : Post) : Except ApiError Post :=
  let alreadyLiked := p.likes.filter (fun like => like.user == callerId)
  if alreadyLiked.length == 0 then
    .error (.conflict "Post has not yet been liked")
  else
    .ok { p with likes := spliceOne p.likes (unlikeRemoveIndex callerId p) }

/-- POST api/posts/comment/:id handler body (after validation), on the
fetched post: unshift a fresh comment denormalizing the author's
name/avatar. -/
def addComment (author : User) (text : String) (cid : String) (p : Post) : Post :=
  { p with comments :=
      { id := cid, text := text, name := author.name, avatar := author.avatar,
        user := author.id } :: p.comments }

/-- DELETE api/posts/comment/:id/:comment_id handler body, on the fetched
post: find the comment by its id (404 if absent), 401 if its author is
not the caller, else splice at the index found by scanning comment
AUTHORS for the caller's id — exactly as the source computes it. -/
def removeComment (callerId : String) (commentId : String) (p : Post) :
    Except ApiError Post :=
  match p.comments.find? (fun c => c.id == commentId) with
  | none => .error (.notFound "Comment doesn't exists")
  | some curComment =>
    if curComment.user != callerId then
      .error (.forbidden "User not authorized")
    else
      let removeIndex := jsIndexOf (p.comments.map (fun c => c.user)) callerId
      .ok { p with comments := spliceOne p.comments removeIndex }

/-- Number of likes on `p` by user `u`. -/
def likeCount (u : String) (p : Post) : Nat :=
  (p.likes.filter (fun like => like.user == u)).length

/-- The state reached by one like call (the handler leaves the post
unchanged when it responds with an error). -/
def applyLike (callerId : String) (p : Post) : Post :=
  match likePost callerId p with
  | .ok p' => p'
  | .error _ => p

/-- The state reached by a sequence of like calls, left to right. -/
def applyLikes (calls : List String) (p : Post) : Post :=
  calls.foldl (fun q c => applyLike c q) p

/-- The state reached by one unlike call (the handler leaves the post
unchanged when it responds with an error). -/
def applyUnlike (callerId : String) (p : Post) : Post :=
  match unlikePost callerId p with
  | .ok p' => p'
  | .error _ => p

/-- An experience subdocument of a profile (locally-unique `id`; `from`
and `to` are rendered as `fromDate`/`toDate`). -/
structure Experience where
  id : String
  title : String
  company : String
  location : Option String
  fromDate : String
  toDate : Option String
  current : Bool
  description : Option String
  deriving Repr, DecidableEq

/-- An education subdocument of a profile (locally-unique `id`). -/
structure Education where
  id : String
  school : String
  degree : String
  fieldofstudy : String
  fromDate : String
  toDate : Option String
  current : Bool
  description : Option String
  deriving Repr, DecidableEq

/-- The nested social-links object of a profile; each platform is
optional (absent when the key was never set). -/
structure Social where
  youtube : Option String
  facebook : Option String
  twitter : Option String
  instagram : Option String
  linkedin : Option String
  deriving Repr, DecidableEq

/-- A profile document (models/Profile), keyed by its owning user. -/
structure Profile where
  user : String
  company : Option String
  website : Option String
  location : Option String
  status : Option String
  skills : List String
  bio : Option String
  githubusername : Option String
  social : Social
  experiences : List Experience
  education : List Education
  deriving Repr, DecidableEq

/-- The request body of POST api/profile: every field may be absent. -/
structure ProfileInput where
  company : Option String
  website : Option String
  location : Option String
  status : Option String
  skills : Option String
  bio : Option String
  githubusername : Option String
  youtube : Option String
  twitter : Option String
  linkedin : Option String
  instagram : Option String
  facebook : Option String
  deriving Repr, DecidableEq

/-- JS truthiness of a possibly-absent string field: `undefined` and the
empty string are falsy. -/
def truthy : Option String → Bool
  | none => false
  | some s => s != ""

/-- Parse the delimited skills string: split on commas and trim each
piece, keeping order. -/
def parseSkills (s : String) : List String :=
  (s.splitOn ",").map String.trim

/-- The `profileFields.social` object built by the POST api/profile
handler: starts empty and receives exactly the truthy fields. -/
def buildSocial (inp : ProfileInput) : Social :=
  { youtube := if truthy inp.youtube then inp.youtube else none,
    facebook := if truthy inp.facebook then inp.facebook else none,
    twitter := if truthy inp.twitter then inp.twitter else none,
    instagram := if truthy inp.instagram then inp.instagram else none,
    linkedin := if truthy inp.linkedin then inp.linkedin else none }

/-- Effect of `$set: profileFields` on a profile document: the keys
present in `profileFields` (the truthy scalar fields, `user`, and —
always — the freshly built `social` object) overwrite the document's
values wholesale; absent keys keep the stored value. -/
def applyProfileFields (uid : String) (inp : ProfileInput) (old : Profile) : Profile :=
  { old with
    user := uid,
    company := if truthy inp.company then inp.company else old.company,
    website := if truthy inp.website then inp.website else old.website,
    location := if truthy inp.location then inp.location else old.location,
    status := if truthy inp.status then inp.status else old.status,
    bio := if truthy inp.bio then inp.bio else old.bio,
    githubusername := if truthy inp.githubusername then inp.githubusername
                      else old.githubusername,
    skills := match inp.skills with
      | some s => if s != "" then parseSkills s else old.skills
      | none => old.skills,
    social := buildSocial inp }

/-- A fresh profile document before any field is set (schema defaults). -/
def emptyProfile (uid : String) : Profile :=
  { user := uid, company := none, website := none, location := none,
    status := none, skills := [], bio := none, githubusername := none,
    social := { youtube := none, facebook := none, twitter := none,
                instagram := none, linkedin := none },
    experiences := [], education := [] }

/-- POST api/profile handler body (after validation): update the caller's
profile via `findOneAndUpdate` with `$set` when it exists, else create
one from `profileFields`.  Returns the responded profile and the
resulting collection. -/
def upsertProfileRoute (uid : String) (inp : ProfileInput) (profiles : List Profile) :
    Profile × List Profile :=
  match profiles.find? (fun pr => pr.user == uid) with
  | some old =>
    (applyProfileFields uid inp old,
     profiles.map (fun pr => if pr.user == uid then applyProfileFields uid inp pr else pr))
  | none =>
    let np := applyProfileFields uid inp (emptyProfile uid)
    (np, profiles ++ [np])

/-- DELETE api/profile/experience/:experience_id handler body, on the
caller's fetched profile: splice at the index `indexOf` reports for the
entry id (-1 when absent — spliced as-is, exactly as the source does). -/
def removeExperience (expId : String) (pr : Profile) : Profile :=
  let removeIndex := jsIndexOf (pr.experiences.map (fun item => item.id)) expId
  { pr with experiences := spliceOne pr.experiences removeIndex }

/-- DELETE api/profile/education/:education_id handler body, on the
caller's fetched profile: same index computation as experience removal. -/
def removeEducation (eduId : String) (pr : Profile) : Profile :=
  let removeIndex := jsIndexOf (pr.education.map (fun item => item.id)) eduId
  { pr with education := spliceOne pr.education removeIndex }

/-- The request body of POST api/users. -/
structure RegisterInput where
  name : String
  email : String
  password : String
  deriving Repr, DecidableEq

/-- The express-validator chain of POST api/users: name must be
non-empty, email must satisfy the (external) `isEmail` predicate, and the
password must have at least 6 characters.  Yields the field-level
messages of the failed checks, in chain order. -/
def validateRegistration (isEmail : String → Bool) (inp : RegisterInput) :
    List String :=
  (if inp.name == "" then ["Name is required"] else []) ++
  (if isEmail inp.email then [] else ["Please include email"]) ++
  (if inp.password.length < 6 then
    ["Please enter a password with 6 or more characters"] else [])

/-- Outcome of POST api/users: a 400 with the validation messages, a 400
with msg "User Already Exists", or a 200 with a token for the new user. -/
inductive RegisterResult where
  | validationFailed (msgs : List String)
  | emailExists
  | registered (u : User)
  deriving Repr, DecidableEq

/-- POST api/users handler: reject on validation errors; reject when a
user with the email exists; otherwise derive the avatar from the email,
hash the password, and persist the new user.  `hash` and `gravatarUrl`
are the external bcrypt and gravatar primitives; `newId` is the id the
store assigns.  Returns the response and the resulting collection. -/
def register (isEmail : String → Bool) (hash : String → String)
    (gravatarUrl : String → String) (newId : String)
    (inp : RegisterInput) (users : List User) : RegisterResult × List User :=
  let errors := validateRegistration isEmail inp
  if errors.isEmpty then
    match users.find? (fun u => u.email == inp.email) with
    | some _ => (.emailExists, users)
    | none =>
      let u : User := { id := newId, name := inp.name, email := inp.email,
                        avatar := gravatarUrl inp.email,
                        password := hash inp.password }
      (.registered u, users ++ [u])
  else
    (.validationFailed errors, users)

/-- Response of POST api/auth, distinguishing the two JSON body shapes
the source emits on failure: `errorsKey` is a body under the key
`errors`, `errorKey` a body under the key `error` (singular). -/
inductive AuthResponse where
  | errorsKey (status : Nat) (msgs : List String)
  | errorKey (status : Nat) (msgs : List String)
  | token (userId : String)
  deriving Repr, DecidableEq

/-- POST api/auth handler body (after validation): look the user up by
email, responding `{errors: [{msg: 'Invalid Credentials'}]}` when absent;
compare the password via the external bcrypt `compare`, responding
`{error: [{msg: 'Invalid Credentials'}]}` on mismatch; else issue the
token for the user's id. -/
def authenticate (compare : String → String → Bool) (email password : String)
    (users : List User) : AuthResponse :=
  match users.find? (fun u => u.email == email) with
  | none => .errorsKey 400 ["Invalid Credentials"]
  | some foundUser =>
    if compare password foundUser.password then
      .token foundUser.id
    else
      .errorKey 400 ["Invalid Credentials"]

/-! Concrete documents used to evaluate the handlers on explicit inputs. -/

/-- A first comment by user "alice" (comment id "c1"). -/
def aliceComment1 : Comment :=
  { id := "c1", text := "first", name := "Alice", avatar := "av", user := "alice" }

/-- A second comment by user "alice" (comment id "c2"). -/
def aliceComment2 : Comment :=
  { id := "c2", text := "second", name := "Alice", avatar := "av", user := "alice" }

/-- A post carrying alice's two comments. -/
def twoCommentPost : Post :=
  { id := "p1", text := "hello", name := "Alice", avatar := "av", user := "alice",
    date := 0, likes := [], comments := [aliceComment1, aliceComment2] }

/-- A post liked by "x" and "y". -/
def likedPost : Post :=
  { id := "p2", text := "hi", name := "Alice", avatar := "av", user := "alice",
    date := 0, likes := [{ user := "x" }, { user := "y" }], comments := [] }

/-- An experience entry with id "e1". -/
def exper1 : Experience :=
  { id := "e1", title := "dev", company := "acme", location := none,
    fromDate := "2020", toDate := none, current := true, description := none }

/-- An experience entry with id "e2". -/
def exper2 : Experience :=
  { id := "e2", title := "ops", company := "init", location := none,
    fromDate := "2021", toDate := none, current := true, description := none }

/-- An education entry with id "d1". -/
def educ1 : Education :=
  { id := "d1", school := "mit", degree := "bs", fieldofstudy := "cs",
    fromDate := "2015", toDate := none, current := false, description := none }

/-- An education entry with id "d2". -/
def educ2 : Education :=
  { id := "d2", school := "cmu", degree := "ms", fieldofstudy := "cs",
    fromDate := "2018", toDate := none, current := false, description := none }

/-- A stored profile with two experience entries, two education entries
and a youtube social link. -/
def storedProfile : Profile :=
  { user := "u1", company := none, website := none, location := none,
    status := some "dev", skills := ["go"], bio := none, githubusername := none,
    social := { youtube := some "yt.com/a", facebook := none, twitter := none,
                instagram := none, linkedin := none },
    experiences := [exper1, exper2], education := [educ1, educ2] }

/-- An upsert body supplying status, skills and twitter only. -/
def twitterOnlyInput : ProfileInput :=
  { company := none, website := none, location := none, status := some "dev",
    skills := some "go", bio := none, githubusername := none, youtube := none,
    twitter := some "tw.com/a", linkedin := none, instagram := none, facebook := none }

/-- A stored user holding a bcrypt hash. -/
def storedBob : User :=
  { id := "u1", name := "Bob", email := "bob@x.com", avatar := "av",
    password := "HASH" }

/-- The user document POST api/users persists for the example
registration (password hashed by the example `hash`, avatar by the
example `gravatarUrl`). -/
def registeredAda : User :=
  { id := "1", name := "Ada", email := "ada@x.com", avatar := "av",
    password := "pw1234#" }

/-! Helper lemmas about the JS array primitives. -/

theorem jsIndexOf_of_not_mem (l : List String) (x : String) (hx : x ∉ l) :
    jsIndexOf l x = -1 := by
  induction l with
  | nil => rfl
  | cons a as ih =>
    have hax : (a == x) = false := by
      simp only [beq_eq_false_iff_ne]
      intro h
      exact hx (h ▸ List.mem_cons_self a as)
    have hxs : x ∉ as := fun h => hx (List.mem_cons_of_mem a h)
    simp [jsIndexOf, hax, ih hxs]

theorem jsIndexOf_of_mem (l : List String) (x : String) (hx : x ∈ l) :
    0 ≤ jsIndexOf l x ∧ (jsIndexOf l x).toNat < l.length ∧
      l[(jsIndexOf l x).toNat]? = some x := by
  induction l with
  | nil => simp at hx
  | cons a as ih =>
    by_cases hax : a = x
    · subst hax
      have h0 : jsIndexOf (a :: as) a = 0 := by simp [jsIndexOf]
      rw [h0]
      simp
    · have hbeq : (a == x) = false := beq_eq_false_iff_ne.mpr hax
      have hxs : x ∈ as := by
        rcases List.mem_cons.mp hx with h | h
        · exact absurd h.symm hax
        · exact h
      obtain ⟨h0, hlt, hget⟩ := ih hxs
      have hnlt : ¬ jsIndexOf as x < 0 := by omega
      have hstep : jsIndexOf (a :: as) x = jsIndexOf as x + 1 := by
        simp [jsIndexOf, hbeq, hnlt]
      rw [hstep]
      have ht : (jsIndexOf as x + 1).toNat = (jsIndexOf as x).toNat + 1 := by omega
      refine ⟨by omega, ?_, ?_⟩
      · rw [ht]
        simpa using hlt
      · rw [ht, List.getElem?_cons_succ]
        exact hget

theorem spliceOne_of_nonneg {α : Type} (l : List α) (i : Int) (h0 : 0 ≤ i) :
    spliceOne l i = l.take i.toNat ++ l.drop (i.toNat + 1) := by
  have hneg : ¬ i < 0 := by omega
  simp only [spliceOne, hneg, if_false]
  by_cases hle : i.toNat ≤ l.length
  · rw [min_eq_left hle]
  · have h1 : l.length ≤ i.toNat := by omega
    rw [min_eq_right h1, List.take_of_length_le h1, List.take_of_length_le (by omega),
        List.drop_eq_nil_of_le (by omega), List.drop_eq_nil_of_le (by omega)]

theorem likeCount_pos_mem (u : String) (p : Post) (h : 0 < likeCount u p) :
    u ∈ p.likes.map (fun like => like.user) := by
  unfold likeCount at h
  rw [List.length_pos] at h
  obtain ⟨like, hlike⟩ := List.exists_mem_of_ne_nil _ h
  rw [List.mem_filter] at hlike
  exact List.mem_map.mpr ⟨like, hlike.1, by simpa using hlike.2⟩

/-! Claim theorems. -/

/-- C1: evaluating the DELETE comment handler at a failing input.  The
caller "alice" owns both comments "c1" and "c2" of `twoCommentPost` and
asks to delete comment "c2"; the handler instead removes comment "c1"
(the first comment whose author is the caller), so the targeted comment
"c2" survives.  The contract — remove exactly the comment whose own id is
the requested one — is violated. -/
theorem removeComment_deletes_wrong_comment :
    removeComment "alice" "c2" twoCommentPost =
      .ok { twoCommentPost with comments := [aliceComment2] } ∧
    aliceComment2.id = "c2" ∧ aliceComment1.id = "c1" :=
  ⟨rfl, rfl, rfl⟩

/-- C2: evaluating the experience/education removal handlers at a missing
entry id.  `storedProfile` holds experiences [e1, e2] and education
[d1, d2]; removing the absent id "zzz" computes `indexOf = -1`, and
`splice(-1, 1)` deletes the LAST entry of each list instead of being a
no-op. -/
theorem removeEntry_missing_id_removes_last :
    (removeExperience "zzz" storedProfile).experiences = [exper1] ∧
    (removeEducation "zzz" storedProfile).education = [educ1] ∧
    storedProfile.experiences = [exper1, exper2] ∧
    storedProfile.education = [educ1, educ2] :=
  ⟨rfl, rfl, rfl, rfl⟩

/-- C5: evaluating POST api/auth on its two failure paths.  With no
account for the email the body is keyed `errors`; with an account whose
hash comparison fails (bcrypt modelled as always-false `compare`) the
body is keyed `error`.  The two failure responses are distinguishable,
so the response shapes are not identical. -/
theorem authenticate_distinguishable_failures :
    authenticate (fun _ _ => false) "bob@x.com" "pw" [] =
      .errorsKey 400 ["Invalid Credentials"] ∧
    authenticate (fun _ _ => false) "bob@x.com" "pw" [storedBob] =
      .errorKey 400 ["Invalid Credentials"] ∧
    authenticate (fun _ _ => false) "bob@x.com" "pw" [] ≠
      authenticate (fun _ _ => false) "bob@x.com" "pw" [storedBob] :=
  ⟨rfl, rfl, by decide⟩

/-- C6 counterexample: a stored profile has `social.youtube` set; an
upsert supplying only twitter leaves youtube cleared (unset) in the
result, not unchanged — refuting the claim that omitted social-link
fields of an existing profile survive the update. -/
theorem upsert_clears_omitted_social :
    (upsertProfileRoute "u1" twitterOnlyInput [storedProfile]).1.social.youtube = none ∧
    storedProfile.social.youtube = some "yt.com/a" ∧
    truthy twitterOnlyInput.youtube = false :=
  ⟨rfl, rfl, rfl⟩

/-- C6 amended: on update of an existing profile, the social object is
rebuilt solely from the supplied (truthy) fields and replaces the stored
social object wholesale: the result equals `buildSocial`, is independent
of the previously stored profile, and each platform field is the supplied
value when supplied and unset when omitted. -/
theorem upsert_social_rebuilt (uid : String) (inp : ProfileInput)
    (profiles : List Profile) (old : Profile)
    (hfind : profiles.find? (fun pr => pr.user == uid) = some old) :
    (upsertProfileRoute uid inp profiles).1.social = buildSocial inp ∧
    (∀ old2 : Profile, (applyProfileFields uid inp old2).social = buildSocial inp) ∧
    (truthy inp.youtube = false → (buildSocial inp).youtube = none) ∧
    (truthy inp.youtube = true → (buildSocial inp).youtube = inp.youtube) ∧
    (truthy inp.facebook = false → (buildSocial inp).facebook = none) ∧
    (truthy inp.facebook = true → (buildSocial inp).facebook = inp.facebook) ∧
    (truthy inp.twitter = false → (buildSocial inp).twitter = none) ∧
    (truthy inp.twitter = true → (buildSocial inp).twitter = inp.twitter) ∧
    (truthy inp.instagram = false → (buildSocial inp).instagram = none) ∧
    (truthy inp.instagram = true → (buildSocial inp).instagram = inp.instagram) ∧
    (truthy inp.linkedin = false → (buildSocial inp).linkedin = none) ∧
    (truthy inp.linkedin = true → (buildSocial inp).linkedin = inp.linkedin) := by
  refine ⟨?_, fun old2 => rfl, ?_, ?_, ?_, ?_, ?_, ?_, ?_, ?_, ?_, ?_⟩
  · simp [upsertProfileRoute, hfind]
    rfl
  all_goals intro h
  all_goals simp [buildSocial, h]

/-- C6 witness for the amended statement. -/
theorem upsert_social_rebuilt_witness :
    (upsertProfileRoute "u1" twitterOnlyInput [storedProfile]).1.social =
      buildSocial twitterOnlyInput ∧
    (∀ old2 : Profile, (applyProfileFields "u1" twitterOnlyInput old2).social =
      buildSocial twitterOnlyInput) ∧
    (truthy twitterOnlyInput.youtube = false →
      (buildSocial twitterOnlyInput).youtube = none) ∧
    (truthy twitterOnlyInput.youtube = true →
      (buildSocial twitterOnlyInput).youtube = twitterOnlyInput.youtube) ∧
    (truthy twitterOnlyInput.facebook = false →
      (buildSocial twitterOnlyInput).facebook = none) ∧
    (truthy twitterOnlyInput.facebook = true →
      (buildSocial twitterOnlyInput).facebook = twitterOnlyInput.facebook) ∧
    (truthy twitterOnlyInput.twitter = false →
      (buildSocial twitterOnlyInput).twitter = none) ∧
    (truthy twitterOnlyInput.twitter = true →
      (buildSocial twitterOnlyInput).twitter = twitterOnlyInput.twitter) ∧
    (truthy twitterOnlyInput.instagram = false →
      (buildSocial twitterOnlyInput).instagram = none) ∧
    (truthy twitterOnlyInput.instagram = true →
      (buildSocial twitterOnlyInput).instagram = twitterOnlyInput.instagram) ∧
    (truthy twitterOnlyInput.linkedin = false →
      (buildSocial twitterOnlyInput).linkedin = none) ∧
    (truthy twitterOnlyInput.linkedin = true →
      (buildSocial twitterOnlyInput).linkedin = twitterOnlyInput.linkedin) :=
  upsert_social_rebuilt "u1" twitterOnlyInput [storedProfile] storedProfile rfl

/-- C10: registering with a password shorter than 6 characters always
fails with the field-level validation messages and leaves the user
collection untouched; moreover the outcome is independent of the hashing
primitive, so no hash of the password can influence (or be required for)
the response — nothing is hashed or persisted. -/
theorem register_short_password (isEmail : String → Bool)
    (hash hash2 gravatarUrl : String → String) (newId : String)
    (inp : RegisterInput) (users : List User)
    (hlen : inp.password.length < 6) :
    register isEmail hash gravatarUrl newId inp users =
      (.validationFailed (validateRegistration isEmail inp), users) ∧
    register isEmail hash gravatarUrl newId inp users =
      register isEmail hash2 gravatarUrl newId inp users := by
  have hnil : validateRegistration isEmail inp ≠ [] := by
    unfold validateRegistration
    simp [hlen]
  have hne : (validateRegistration isEmail inp).isEmpty = false := by
    cases hemp : (validateRegistration isEmail inp).isEmpty
    · rfl
    · exact absurd (List.isEmpty_iff.mp hemp) hnil
  have key : ∀ hsh : String → String,
      register isEmail hsh gravatarUrl newId inp users =
        (.validationFailed (validateRegistration isEmail inp), users) := by
    intro hsh
    simp [register, hne]
  exact ⟨key hash, (key hash).trans (key hash2).symm⟩

/-- C10 witness. -/
theorem register_short_password_witness :
    register (fun _ => true) (fun s => s ++ "#") (fun _ => "av") "9"
      { name := "Eve", email := "eve@x.com", password := "pw" } [] =
      (.validationFailed (validateRegistration (fun _ => true)
        { name := "Eve", email := "eve@x.com", password := "pw" }), []) ∧
    register (fun _ => true) (fun s => s ++ "#") (fun _ => "av") "9"
      { name := "Eve", email := "eve@x.com", password := "pw" } [] =
      register (fun _ => true) (fun s => s ++ "!") (fun _ => "av") "9"
        { name := "Eve", email := "eve@x.com", password := "pw" } [] :=
  register_short_password (fun _ => true) (fun s => s ++ "#") (fun s => s ++ "!")
    (fun _ => "av") "9" { name := "Eve", email := "eve@x.com", password := "pw" } []
    (by decide)

/-- C7: after a successful registration, any further registration attempt
with the same email leaves the user collection unchanged (no new User
record), and whenever the attempt passes input validation it fails
precisely with the duplicate-email conflict. -/
theorem register_duplicate_email (isEmail : String → Bool)
    (hash gravatarUrl : String → String) (id1 id2 : String)
    (inp inp2 : RegisterInput) (users users2 : List User) (u : User)
    (hreg : register isEmail hash gravatarUrl id1 inp users = (.registered u, users2))
    (hemail : inp2.email = inp.email) :
    (register isEmail hash gravatarUrl id2 inp2 users2).2 = users2 ∧
    (validateRegistration isEmail inp2 = [] →
      (register isEmail hash gravatarUrl id2 inp2 users2).1 = .emailExists) := by
  cases hv : (validateRegistration isEmail inp).isEmpty with
  | false => simp [register, hv, Prod.ext_iff] at hreg
  | true =>
    cases hfind : users.find? (fun v => v.email == inp.email) with
    | some w => simp [register, hv, hfind, Prod.ext_iff] at hreg
    | none =>
      simp only [register, hv, hfind, if_true, Prod.mk.injEq] at hreg
      obtain ⟨hu, husers⟩ := hreg
      have hmem : ∃ v ∈ users2, v.email = inp2.email := by
        refine ⟨{ id := id1, name := inp.name, email := inp.email,
                  avatar := gravatarUrl inp.email, password := hash inp.password },
                ?_, hemail.symm⟩
        rw [← husers]
        simp
      have hfind2 : users2.find? (fun v => v.email == inp2.email) ≠ none := by
        intro hn
        rw [List.find?_eq_none] at hn
        obtain ⟨v, hv2, hve⟩ := hmem
        exact hn v hv2 (by simp [hve])
      cases hv2 : (validateRegistration isEmail inp2).isEmpty with
      | false =>
        constructor
        · simp [register, hv2]
        · intro hval2
          rw [hval2] at hv2
          simp at hv2
      | true =>
        cases hfind3 : users2.find? (fun v => v.email == inp2.email) with
        | none => exact absurd hfind3 hfind2
        | some w =>
          constructor
          · simp [register, hv2, hfind3]
          · intro _
            simp [register, hv2, hfind3]

/-- C7 witness. -/
theorem register_duplicate_email_witness :
    (register (fun _ => true) (fun s => s ++ "#") (fun _ => "av") "2"
      { name := "Bob", email := "ada@x.com", password := "pw9999" }
      [registeredAda]).2 = [registeredAda] ∧
    (validateRegistration (fun _ => true)
        { name := "Bob", email := "ada@x.com", password := "pw9999" } = [] →
      (register (fun _ => true) (fun s => s ++ "#") (fun _ => "av") "2"
        { name := "Bob", email := "ada@x.com", password := "pw9999" }
        [registeredAda]).1 = .emailExists) :=
  register_duplicate_email (fun _ => true) (fun s => s ++ "#") (fun _ => "av") "1" "2"
    { name := "Ada", email := "ada@x.com", password := "pw1234" }
    { name := "Bob", email := "ada@x.com", password := "pw9999" }
    [] [registeredAda] registeredAda rfl rfl

/-- C8: for an existing post, deletion by a non-author fails 401 with the
collection unchanged and the post still retrievable, while deletion by
the author succeeds and makes a subsequent GET by id fail 404. -/
theorem delete_post_ownership (store : List Post) (callerId pid : String) (p : Post)
    (hfind : findPost store pid = some p) :
    (p.user ≠ callerId →
      deletePostRoute callerId pid store =
        (.error (.forbidden "User not authorised"), store) ∧
      getPostById store pid = .ok p) ∧
    (p.user = callerId →
      (deletePostRoute callerId pid store).1 = .ok () ∧
      getPostById (deletePostRoute callerId pid store).2 pid =
        .error (.notFound "Post Not Found")) := by
  constructor
  · intro hne
    have hb : (p.user != callerId) = true := bne_iff_ne.mpr hne
    constructor
    · simp [deletePostRoute, hfind, hb]
    · simp [getPostById, hfind]
  · intro heq
    have hb : (p.user != callerId) = false := by simp [heq]
    have hroute : deletePostRoute callerId pid store =
        (.ok (), store.filter (fun q => !(q.id == pid))) := by
      simp [deletePostRoute, hfind, hb]
    rw [hroute]
    refine ⟨rfl, ?_⟩
    have hnone : (store.filter (fun q => !(q.id == pid))).find?
        (fun q => q.id == pid) = none := by
      rw [List.find?_eq_none]
      intro x hx
      have h2 := (List.mem_filter.mp hx).2
      simpa using h2
    simp [getPostById, findPost, hnone]

/-- C8 witness (non-author caller "bob" on the post of author "alice"). -/
theorem delete_post_ownership_witness :
    (likedPost.user ≠ "bob" →
      deletePostRoute "bob" "p2" [likedPost] =
        (.error (.forbidden "User not authorised"), [likedPost]) ∧
      getPostById [likedPost] "p2" = .ok likedPost) ∧
    (likedPost.user = "bob" →
      (deletePostRoute "bob" "p2" [likedPost]).1 = .ok () ∧
      getPostById (deletePostRoute "bob" "p2" [likedPost]).2 "p2" =
        .error (.notFound "Post Not Found")) :=
  delete_post_ownership [likedPost] "bob" "p2" likedPost rfl

/-- One like call preserves "at most one like per user". -/
theorem likeCount_applyLike_le (c u : String) (p : Post) (h : likeCount u p ≤ 1) :
    likeCount u (applyLike c p) ≤ 1 := by
  by_cases hc : (p.likes.filter fun like => like.user == c).length > 0
  · simpa [applyLike, likePost, hc] using h
  · have hres : applyLike c p = { p with likes := { user := c } :: p.likes } := by
      simp [applyLike, likePost, hc]
    rw [hres]
    unfold likeCount at h ⊢
    rw [List.filter_cons]
    by_cases hcu : c = u
    · subst hcu
      have hz : (p.likes.filter fun like => like.user == c).length = 0 := by omega
      simp [hz]
    · have : (({ user := c } : Like).user == u) = false := by
        simpa using hcu
      simp only [this, if_false]
      exact h

/-- Any sequence of like calls preserves "at most one like per user". -/
theorem likeCount_applyLikes_le (calls : List String) (u : String) (p : Post)
    (h : likeCount u p ≤ 1) : likeCount u (applyLikes calls p) ≤ 1 := by
  induction calls generalizing p with
  | nil => simpa [applyLikes] using h
  | cons c cs ih =>
    have hstep : applyLikes (c :: cs) p = applyLikes cs (applyLike c p) := rfl
    rw [hstep]
    exact ih (applyLike c p) (likeCount_applyLike_le c u p h)

/-- C3: starting from any post satisfying the at-most-one-like invariant
for a user (as every freshly created post does), any sequence of like
calls keeps at most one like by that user; and whenever the user already
has a like, a further like call fails with the "Post already liked"
conflict and the likes list length is unchanged. -/
theorem like_at_most_once (calls : List String) (u : String) (p : Post)
    (h : likeCount u p ≤ 1) :
    likeCount u (applyLikes calls p) ≤ 1 ∧
    (1 ≤ likeCount u p →
      likePost u p = .error (.conflict "Post already liked") ∧
      (applyLike u p).likes.length = p.likes.length) := by
  refine ⟨likeCount_applyLikes_le calls u p h, fun h1 => ?_⟩
  have hgt : (p.likes.filter fun like => like.user == u).length > 0 := h1
  constructor
  · simp [likePost, hgt]
  · simp [applyLike, likePost, hgt]

/-- C3 witness (user "x" already likes `likedPost`). -/
theorem like_at_most_once_witness :
    likeCount "x" (applyLikes ["x", "x"] likedPost) ≤ 1 ∧
    (1 ≤ likeCount "x" likedPost →
      likePost "x" likedPost = .error (.conflict "Post already liked") ∧
      (applyLike "x" likedPost).likes.length = likedPost.likes.length) :=
  like_at_most_once ["x", "x"] "x" likedPost (by decide)

/-- C4: for a user with no like on the post, unlike fails with the "not
yet been liked" conflict and leaves the post unchanged; and like followed
by unlike for that user returns the post — in particular its likes
list — exactly to its prior state. -/
theorem unlike_conflict_and_roundtrip (u : String) (p p2 : Post)
    (h0 : likeCount u p = 0) :
    unlikePost u p = .error (.conflict "Post has not yet been liked") ∧
    applyUnlike u p = p ∧
    (likePost u p = .ok p2 → unlikePost u p2 = .ok p) := by
  have hf : (p.likes.filter fun like => like.user == u).length = 0 := h0
  have hfe : p.likes.filter (fun like => like.user == u) = [] :=
    List.length_eq_zero.mp hf
  have h1 : unlikePost u p = .error (.conflict "Post has not yet been liked") := by
    simp [unlikePost, hf]
  refine ⟨h1, by simp [applyUnlike, h1], fun hl => ?_⟩
  have hnp : likePost u p = .ok { p with likes := { user := u } :: p.likes } := by
    simp [likePost, hf]
  rw [hnp] at hl
  injection hl with hl
  subst hl
  simp [unlikePost, List.filter_cons, hfe, unlikeRemoveIndex, jsIndexOf, spliceOne]

/-- C4 witness (user "b" has no like on `likedPost`). -/
theorem unlike_conflict_and_roundtrip_witness :
    unlikePost "b" likedPost = .error (.conflict "Post has not yet been liked") ∧
    applyUnlike "b" likedPost = likedPost ∧
    (likePost "b" likedPost =
        .ok { likedPost with likes := { user := "b" } :: likedPost.likes } →
      unlikePost "b" { likedPost with likes := { user := "b" } :: likedPost.likes } =
        .ok likedPost) :=
  unlike_conflict_and_roundtrip "b" likedPost
    { likedPost with likes := { user := "b" } :: likedPost.likes } (by decide)

/-- C9: when at least one like by the caller exists (the state in which
the conflict guard lets the splice run), the computed remove index is
non-negative and in range, the element at that index is a like belonging
to the caller, the handler removes exactly that element, and the list
shrinks by exactly one. -/
theorem unlike_splice_removes_callers_like (u : String) (p : Post)
    (h : 0 < likeCount u p) :
    0 ≤ unlikeRemoveIndex u p ∧
    (unlikeRemoveIndex u p).toNat < p.likes.length ∧
    (∃ like, p.likes[(unlikeRemoveIndex u p).toNat]? = some like ∧ like.user = u) ∧
    unlikePost u p =
      .ok { p with likes := p.likes.take (unlikeRemoveIndex u p).toNat ++
                              p.likes.drop ((unlikeRemoveIndex u p).toNat + 1) } ∧
    (p.likes.take (unlikeRemoveIndex u p).toNat ++
      p.likes.drop ((unlikeRemoveIndex u p).toNat + 1)).length + 1 =
      p.likes.length := by
  have hmem : u ∈ p.likes.map (fun like => like.user) := likeCount_pos_mem u p h
  obtain ⟨h0, hlt, hget⟩ := jsIndexOf_of_mem _ u hmem
  rw [List.length_map] at hlt
  rw [List.getElem?_map] at hget
  obtain ⟨like, hlike, hlu⟩ := Option.map_eq_some'.mp hget
  have h0' : 0 ≤ unlikeRemoveIndex u p := h0
  have hlt' : (unlikeRemoveIndex u p).toNat < p.likes.length := hlt
  have hlike' : p.likes[(unlikeRemoveIndex u p).toNat]? = some like := hlike
  have hcond : ((p.likes.filter fun like => like.user == u).length == 0) = false := by
    have hne : (p.likes.filter fun like => like.user == u).length ≠ 0 := by
      unfold likeCount at h
      omega
    simpa using hne
  have hsplice : unlikePost u p =
      .ok { p with likes := spliceOne p.likes (unlikeRemoveIndex u p) } := by
    simp [unlikePost, hcond]
  refine ⟨h0', hlt', ⟨like, hlike', hlu⟩, ?_, ?_⟩
  · rw [hsplice, spliceOne_of_nonneg p.likes (unlikeRemoveIndex u p) h0']
  · rw [List.length_append, List.length_take, List.length_drop]
    omega

/-- C9 witness (caller "y" holds the like at index 1 of `likedPost`). -/
theorem unlike_splice_removes_callers_like_witness :
    0 ≤ unlikeRemoveIndex "y" likedPost ∧
    (unlikeRemoveIndex "y" likedPost).toNat < likedPost.likes.length ∧
    (∃ like, likedPost.likes[(unlikeRemoveIndex "y" likedPost).toNat]? = some like ∧
      like.user = "y") ∧
    unlikePost "y" likedPost =
      .ok { likedPost with
              likes := likedPost.likes.take (unlikeRemoveIndex "y" likedPost).toNat ++
                         likedPost.likes.drop
                           ((unlikeRemoveIndex "y" likedPost).toNat + 1) } ∧
    (likedPost.likes.take (unlikeRemoveIndex "y" likedPost).toNat ++
      likedPost.likes.drop ((unlikeRemoveIndex "y" likedPost).toNat + 1)).length + 1 =
      likedPost.likes.length :=
  unlike_splice_removes_callers_like "y" likedPost (by decide)

end Mern
